import Mathlib

/-!
Verification development for the NES emulator core (6502 CPU interpreter,
memory bus, PPU address register).  Machine integers are modelled as `Nat`
with explicit wrapping (`% 256`, `% 65536`); fallible code (Rust `panic!` /
`todo!` / out-of-bounds indexing) is modelled with `Option` / an explicit
error constructor.  Each definition is a direct translation of the
corresponding Rust item in `src/bus.rs`, `src/cpu.rs` or `src/ppu.rs`,
keeping the source's names where Lean allows it.
-/

namespace NesRust

/-- Wrap to an unsigned 8-bit value (Rust `as u8` / `u8` arithmetic). -/
def wrap8 (n : Nat) : Nat := n % 256

/-- Wrap to an unsigned 16-bit value (Rust `as u16` / `u16` arithmetic). -/
def wrap16 (n : Nat) : Nat := n % 65536

/-- Rust `u8::wrapping_add`. -/
def u8_add (a b : Nat) : Nat := (a + b) % 256

/-- Rust `u8::wrapping_sub` (two's-complement wrap for byte values). -/
def u8_sub (a b : Nat) : Nat := (a % 256 + (256 - b % 256)) % 256

/-- Rust `u16::wrapping_add`. -/
def u16_add (a b : Nat) : Nat := (a + b) % 65536

/-- Reinterpret a byte as a signed 8-bit integer (Rust `as i8`). -/
def i8OfU8 (m : Nat) : Int := if m < 128 then (m : Int) else (m : Int) - 256

/-- Wrap an integer into the signed 8-bit range (Rust `i8` wrapping ops). -/
def i8Wrap (x : Int) : Int := (x + 128) % 256 - 128

/-- Reinterpret a signed 8-bit integer as a byte (Rust `as u8`). -/
def u8OfI8 (x : Int) : Nat := (x % 256).toNat

/-- Rust `jump as u16` where `jump : i8` holds the byte `m`:
sign-extension of a byte to 16 bits. -/
def signExtendU16 (m : Nat) : Nat := if m < 128 then m else 0xff00 + m

/-! ### Bus (src/bus.rs) -/

/-- Cartridge ROM as seen by the bus (`rom.prg_rom`). -/
structure Rom where
  prg_rom : List Nat

/-- The memory bus: 2 KiB of CPU VRAM plus the cartridge
(`struct Bus { cpu_vram: [u8; 0x800], rom: Rom }`).  The RAM array is
modelled as a function from indices to bytes. -/
structure Bus where
  cpu_vram : Nat → Nat
  rom : Rom

/-- Constructor `Bus::new`: all RAM cells zero. -/
def Bus.new (rom : Rom) : Bus := ⟨fun _ => 0, rom⟩

/-- Source `Bus::read_prg_rom`.  The Rust code indexes `prg_rom[addr]`, which
panics when out of bounds; the partiality is modelled with `Option` via
`List.get?`-style indexing. -/
def Bus.read_prg_rom (b : Bus) (addr : Nat) : Option Nat :=
  let addr1 := addr - 0x8000
  let addr2 :=
    if b.rom.prg_rom.length = 0x4000 ∧ 0x4000 ≤ addr1 then addr1 % 0x4000 else addr1
  b.rom.prg_rom[addr2]?

/-- Source `<Bus as Mem>::mem_read`.  The `0x2000..=0x3FFF` arm executes
`todo!("PPU not supported yet")`, a panic, modelled as `none`.
Both RAM masks in the source (`0b00000111_11111111` in `mem_read` and
`0b11111111111` in `mem_write`) equal `0x7FF`. -/
def Bus.mem_read (b : Bus) (addr : Nat) : Option Nat :=
  if addr ≤ 0x1fff then
    some (b.cpu_vram (addr &&& 0x7ff))
  else if addr ≤ 0x3fff then
    none
  else if 0x8000 ≤ addr ∧ addr ≤ 0xffff then
    b.read_prg_rom addr
  else
    some 0

/-- Source `<Bus as Mem>::mem_write`.  The PPU window arm is `todo!(..)` (panic)
and the `0x8000..=0xFFFF` arm is `panic!("Attempt to write to Cartridge
ROM space")`; both are modelled as `none`.  Other unmapped addresses are
ignored (the write is a no-op). -/
def Bus.mem_write (b : Bus) (addr data : Nat) : Option Bus :=
  if addr ≤ 0x1fff then
    some { b with cpu_vram := fun i => if i = (addr &&& 0x7ff) then data else b.cpu_vram i }
  else if addr ≤ 0x3fff then
    none
  else if 0x8000 ≤ addr ∧ addr ≤ 0xffff then
    none
  else
    some b

/-! ### PPU address register (src/ppu.rs, `AddrRegister`) -/

/-- Register `AddrRegister { value: (u8, u8), hi_ptr: bool }`; `hi` is `value.0`
(high byte first), `lo` is `value.1`. -/
structure AddrRegister where
  hi : Nat
  lo : Nat
  hi_ptr : Bool

/-- Constructor `AddrRegister::new`. -/
def AddrRegister.new : AddrRegister := ⟨0, 0, true⟩

/-- Source `AddrRegister::get`: `(value.0 as u16) << 8 | value.1 as u16`. -/
def AddrRegister.get (r : AddrRegister) : Nat := (r.hi <<< 8) ||| r.lo

/-- Source `AddrRegister::set`: `value.0 = (data >> 8) as u8; value.1 = (data & 0xff) as u8`. -/
def AddrRegister.set (r : AddrRegister) (data : Nat) : AddrRegister :=
  { r with hi := (data >>> 8) % 256, lo := data &&& 0xff }

/-- Source `AddrRegister::update` (argument is a `u8`, hence the `% 256`). -/
def AddrRegister.update (r : AddrRegister) (data : Nat) : AddrRegister :=
  let r1 := if r.hi_ptr then { r with hi := data % 256 } else { r with lo := data % 256 }
  let r2 := if r1.get > 0x3fff then r1.set (r1.get &&& 0x3fff) else r1
  { r2 with hi_ptr := !r2.hi_ptr }

/-- Source `AddrRegister::increment` (argument is a `u8`, hence the `% 256`;
`wrapping_add` on both bytes). -/
def AddrRegister.increment (r : AddrRegister) (inc : Nat) : AddrRegister :=
  let lo := r.lo
  let r1 := { r with lo := (r.lo + inc % 256) % 256 }
  let r2 := if lo > r1.lo then { r1 with hi := (r1.hi + 1) % 256 } else r1
  if r2.get > 0x3fff then r2.set (r2.get &&& 0x3fff) else r2

/-- One operation applied to the address register through its public API. -/
inductive AddrOp where
  | update (data : Nat)
  | increment (inc : Nat)

/-- Apply one `AddrOp`. -/
def applyOp (r : AddrRegister) : AddrOp → AddrRegister
  | .update d => r.update d
  | .increment i => r.increment i

/-- Apply a sequence of operations, oldest first. -/
def applyOps (r : AddrRegister) (ops : List AddrOp) : AddrRegister :=
  ops.foldl applyOp r

/-! ### CPU (src/cpu.rs) -/

namespace Flags

/-- Status flag bit 0 (`CARRY = 1 << 0`). -/
def CARRY : Nat := 1

/-- Status flag bit 1 (`ZERO = 1 << 1`). -/
def ZERO : Nat := 2

/-- Status flag bit 2 (`INTERRUPT_DISABLE = 1 << 2`). -/
def INTERRUPT_DISABLE : Nat := 4

/-- Status flag bit 3 (`DECIMAL_MODE = 1 << 3`). -/
def DECIMAL_MODE : Nat := 8

/-- Status flag bit 4 (`BREAK = 1 << 4`). -/
def BREAK : Nat := 16

/-- Status flag bit 5 (`UNUSED = 1 << 5`). -/
def UNUSED : Nat := 32

/-- Status flag bit 6 (`OVERFLOW = 1 << 6`). -/
def OVERFLOW : Nat := 64

/-- Status flag bit 7 (`NEGATIVE = 1 << 7`). -/
def NEGATIVE : Nat := 128

end Flags

/-- Bitflags `contains`: the flag bit is set in the status byte. -/
def statusContains (status flag : Nat) : Bool := status &&& flag != 0

/-- Bitflags `insert`. -/
def statusInsert (status flag : Nat) : Nat := status ||| flag

/-- Bitflags `remove` on a `u8`-backed flag set: `bits &= !flag`. -/
def statusRemove (status flag : Nat) : Nat := status &&& (0xff ^^^ flag)

/-- Bitflags `set`. -/
def statusSet (status flag : Nat) (b : Bool) : Nat :=
  if b then statusInsert status flag else statusRemove status flag

/-- CPU state (`struct CPU`).  The CPU talks to memory through the `Mem`
trait; memory is modelled as a total byte function, reads being
normalised to bytes at the `mem_read` boundary. -/
structure CPUState where
  register_a : Nat
  register_x : Nat
  register_y : Nat
  status : Nat
  program_counter : Nat
  stack_ptr : Nat
  mem : Nat → Nat

/-- Trait method `Mem::mem_read` at the CPU level (returns a byte). -/
def memRead (s : CPUState) (addr : Nat) : Nat := s.mem addr % 256

/-- Trait method `Mem::mem_write` at the CPU level. -/
def memWrite (s : CPUState) (addr data : Nat) : CPUState :=
  { s with mem := fun i => if i = addr then data else s.mem i }

/-- Trait method `Mem::mem_read_u16`: little-endian 16-bit read (`pos + 1` is a `u16`
addition). -/
def memReadU16 (s : CPUState) (pos : Nat) : Nat :=
  (memRead s (wrap16 (pos + 1))) <<< 8 ||| memRead s pos

/-- Source `CPU::set_flag`. -/
def set_flag (s : CPUState) (flag : Nat) : CPUState :=
  { s with status := statusInsert s.status flag }

/-- Source `CPU::clear_flag`. -/
def clear_flag (s : CPUState) (flag : Nat) : CPUState :=
  { s with status := statusRemove s.status flag }

/-- Source `CPU::update_zero_and_negative_flags`. -/
def update_zero_and_negative_flags (s : CPUState) (result : Nat) : CPUState :=
  let s1 := if result = 0 then set_flag s Flags.ZERO else clear_flag s Flags.ZERO
  if result &&& 0x80 != 0 then set_flag s1 Flags.NEGATIVE else clear_flag s1 Flags.NEGATIVE

/-- Source `CPU::update_carry_flag`: sets Carry from bit 7 of `result`. -/
def update_carry_flag (s : CPUState) (result : Nat) : CPUState :=
  if result >>> 7 = 1 then set_flag s Flags.CARRY else clear_flag s Flags.CARRY

/-- Source `CPU::stack_push` (`STACK = 0x0100`; the stack pointer then wraps
down by one). -/
def stack_push (s : CPUState) (data : Nat) : CPUState :=
  let s1 := memWrite s (0x0100 + s.stack_ptr) data
  { s1 with stack_ptr := u8_sub s1.stack_ptr 1 }

/-- Source `CPU::stack_push_u16`: high byte first, then low byte. -/
def stack_push_u16 (s : CPUState) (data : Nat) : CPUState :=
  stack_push (stack_push s ((data >>> 8) % 256)) (data &&& 0xff)

/-- Source `CPU::stack_pop`: increments the stack pointer, then reads. -/
def stack_pop (s : CPUState) : CPUState × Nat :=
  let s1 := { s with stack_ptr := u8_add s.stack_ptr 1 }
  (s1, memRead s1 (0x0100 + s1.stack_ptr))

/-- Source `CPU::stack_pop_u16`: low byte first, then high byte. -/
def stack_pop_u16 (s : CPUState) : CPUState × Nat :=
  let (s1, lo) := stack_pop s
  let (s2, hi) := stack_pop s1
  (s2, hi <<< 8 ||| lo)

/-- Source `CPU::add_to_register_a`: the shared ADC core.  `sum` is computed in
16 bits (no overflow), Carry from `sum > 0xFF`, Overflow from
`(value ^ result) & (result ^ old_A) & 0x80`. -/
def add_to_register_a (s : CPUState) (value : Nat) : CPUState :=
  let sum := s.register_a + value + (if statusContains s.status Flags.CARRY then 1 else 0)
  let s1 := if sum > 0xff then set_flag s Flags.CARRY else clear_flag s Flags.CARRY
  let result := sum % 256
  let s2 :=
    if (value ^^^ result) &&& (result ^^^ s1.register_a) &&& 0x80 != 0 then
      set_flag s1 Flags.OVERFLOW
    else
      clear_flag s1 Flags.OVERFLOW
  update_zero_and_negative_flags { s2 with register_a := result } result

/-- The operand-transform performed by `CPU::sbc` (and the unofficial
SBC/ISC arms): `(value as i8).wrapping_neg().wrapping_sub(1) as u8`. -/
def sbcOperand (value : Nat) : Nat :=
  u8OfI8 (i8Wrap (i8Wrap (-(i8OfU8 value)) - 1))

/-- Source `enum AddressingMode`. -/
inductive AddressingMode where
  | Immediate
  | ZeroPage
  | ZeroPage_X
  | ZeroPage_Y
  | Absolute
  | Absolute_X
  | Absolute_Y
  | Indirect_X
  | Indirect_Y
  | NoneAddressing

/-- Source `CPU::get_operand_address`.  The `NoneAddressing` arm panics in the
source, modelled as `none`.  All address arithmetic wraps as in the
source (`wrapping_add` on `u8` / `u16`). -/
def get_operand_address (s : CPUState) (mode : AddressingMode) : Option Nat :=
  match mode with
  | .Immediate => some s.program_counter
  | .ZeroPage => some (memRead s s.program_counter)
  | .Absolute => some (memReadU16 s s.program_counter)
  | .ZeroPage_X => some (u8_add (memRead s s.program_counter) s.register_x)
  | .ZeroPage_Y => some (u8_add (memRead s s.program_counter) s.register_y)
  | .Absolute_X => some (u16_add (memReadU16 s s.program_counter) s.register_x)
  | .Absolute_Y => some (u16_add (memReadU16 s s.program_counter) s.register_y)
  | .Indirect_X =>
      let base := memRead s s.program_counter
      let ptr := u8_add base s.register_x
      let lo := memRead s ptr
      let hi := memRead s (u8_add ptr 1)
      some (hi <<< 8 ||| lo)
  | .Indirect_Y =>
      let base := memRead s s.program_counter
      let lo := memRead s base
      let hi := memRead s (u8_add base 1)
      some (u16_add (hi <<< 8 ||| lo) s.register_y)
  | .NoneAddressing => none

/-- Source `CPU::adc`. -/
def adc (s : CPUState) (mode : AddressingMode) : Option CPUState :=
  (get_operand_address s mode).map fun addr => add_to_register_a s (memRead s addr)

/-- Source `CPU::and`. -/
def and (s : CPUState) (mode : AddressingMode) : Option CPUState :=
  (get_operand_address s mode).map fun addr =>
    let result := s.register_a &&& memRead s addr
    update_zero_and_negative_flags { s with register_a := result } result

/-- Source `CPU::asl` (returns the shifted value; accumulator mode for
`NoneAddressing`).  `data << 1` on a `u8` discards the shifted-out bit. -/
def asl (s : CPUState) (mode : AddressingMode) : Option (CPUState × Nat) :=
  match mode with
  | .NoneAddressing =>
      let data := s.register_a
      let s1 := update_carry_flag s data
      let s2 := { s1 with register_a := (data <<< 1) % 256 }
      some (update_zero_and_negative_flags s2 s2.register_a, s2.register_a)
  | _ =>
      (get_operand_address s mode).map fun addr =>
        let value := memRead s addr
        let s1 := update_carry_flag s value
        let result := (value <<< 1) % 256
        let s2 := memWrite s1 addr result
        (update_zero_and_negative_flags s2 result, result)

/-- Source `CPU::branch`: on a met condition,
`pc ← pc.wrapping_add(1).wrapping_add(jump as u16)` where `jump` is the
displacement byte at `pc` read as an `i8`. -/
def branch (s : CPUState) (condition : Bool) : CPUState :=
  if condition then
    let jump := memRead s s.program_counter
    { s with program_counter :=
        u16_add (u16_add s.program_counter 1) (signExtendU16 jump) }
  else s

/-- Source `CPU::bit`. -/
def bit (s : CPUState) (mode : AddressingMode) : Option CPUState :=
  (get_operand_address s mode).map fun addr =>
    let value := memRead s addr
    let result := s.register_a &&& value
    let s1 :=
      if result = 0 then set_flag s Flags.ZERO else clear_flag s Flags.ZERO
    let s2 := { s1 with status := statusSet s1.status Flags.NEGATIVE (value &&& (1 <<< 7) > 0) }
    { s2 with status := statusSet s2.status Flags.OVERFLOW (value &&& (1 <<< 6) > 0) }

/-- Source `CPU::compare` (CMP/CPX/CPY core): Carry iff `value ≤ reg`, Z/N from
`reg.wrapping_sub(value)`. -/
def compare (s : CPUState) (mode : AddressingMode) (compare_with_reg : Nat) :
    Option CPUState :=
  (get_operand_address s mode).map fun addr =>
    let value := memRead s addr
    let result := u8_sub compare_with_reg value
    let s1 :=
      if value ≤ compare_with_reg then set_flag s Flags.CARRY else clear_flag s Flags.CARRY
    update_zero_and_negative_flags s1 result

/-- Source `CPU::dec`. -/
def dec (s : CPUState) (mode : AddressingMode) : Option CPUState :=
  (get_operand_address s mode).map fun addr =>
    let result := u8_sub (memRead s addr) 1
    update_zero_and_negative_flags (memWrite s addr result) result

/-- Source `CPU::dex`. -/
def dex (s : CPUState) : CPUState :=
  let s1 := { s with register_x := u8_sub s.register_x 1 }
  update_zero_and_negative_flags s1 s1.register_x

/-- Source `CPU::dey`. -/
def dey (s : CPUState) : CPUState :=
  let s1 := { s with register_y := u8_sub s.register_y 1 }
  update_zero_and_negative_flags s1 s1.register_y

/-- Source `CPU::eor`. -/
def eor (s : CPUState) (mode : AddressingMode) : Option CPUState :=
  (get_operand_address s mode).map fun addr =>
    let s1 := { s with register_a := s.register_a ^^^ memRead s addr }
    update_zero_and_negative_flags s1 s1.register_a

/-- Source `CPU::inc` (returns the incremented value). -/
def inc (s : CPUState) (mode : AddressingMode) : Option (CPUState × Nat) :=
  (get_operand_address s mode).map fun addr =>
    let result := u8_add (memRead s addr) 1
    (update_zero_and_negative_flags (memWrite s addr result) result, result)

/-- Source `CPU::inx`. -/
def inx (s : CPUState) : CPUState :=
  let s1 := { s with register_x := u8_add s.register_x 1 }
  update_zero_and_negative_flags s1 s1.register_x

/-- Source `CPU::iny`. -/
def iny (s : CPUState) : CPUState :=
  let s1 := { s with register_y := u8_add s.register_y 1 }
  update_zero_and_negative_flags s1 s1.register_y

/-- Source `CPU::lda`. -/
def lda (s : CPUState) (mode : AddressingMode) : Option CPUState :=
  (get_operand_address s mode).map fun addr =>
    let s1 := { s with register_a := memRead s addr }
    update_zero_and_negative_flags s1 s1.register_a

/-- Source `CPU::ldx`. -/
def ldx (s : CPUState) (mode : AddressingMode) : Option CPUState :=
  (get_operand_address s mode).map fun addr =>
    let s1 := { s with register_x := memRead s addr }
    update_zero_and_negative_flags s1 s1.register_x

/-- Source `CPU::ldy`. -/
def ldy (s : CPUState) (mode : AddressingMode) : Option CPUState :=
  (get_operand_address s mode).map fun addr =>
    let s1 := { s with register_y := memRead s addr }
    update_zero_and_negative_flags s1 s1.register_y

/-- Source `CPU::lsr_acc`. -/
def lsr_acc (s : CPUState) : CPUState :=
  let data := s.register_a
  let s1 := if data &&& 1 = 1 then set_flag s Flags.CARRY else clear_flag s Flags.CARRY
  let s2 := { s1 with register_a := data >>> 1 }
  update_zero_and_negative_flags s2 s2.register_a

/-- Source `CPU::lsr` (memory form, returns the shifted value). -/
def lsr (s : CPUState) (mode : AddressingMode) : Option (CPUState × Nat) :=
  (get_operand_address s mode).map fun addr =>
    let data := memRead s addr
    let s1 := if data &&& 1 = 1 then set_flag s Flags.CARRY else clear_flag s Flags.CARRY
    let data1 := data >>> 1
    let s2 := memWrite s1 addr data1
    (update_zero_and_negative_flags s2 data1, data1)

/-- Source `CPU::ora`. -/
def ora (s : CPUState) (mode : AddressingMode) : Option CPUState :=
  (get_operand_address s mode).map fun addr =>
    let s1 := { s with register_a := s.register_a ||| memRead s addr }
    update_zero_and_negative_flags s1 s1.register_a

/-- Source `CPU::php`: pushes the status with Break and Unused forced to 1. -/
def php (s : CPUState) : CPUState :=
  stack_push s (statusInsert (statusInsert s.status Flags.BREAK) Flags.UNUSED)

/-- Source `CPU::rol_acc`. -/
def rol_acc (s : CPUState) : CPUState :=
  let value := s.register_a
  let old_carry := statusContains s.status Flags.CARRY
  let s1 := if value >>> 7 = 1 then set_flag s Flags.CARRY else clear_flag s Flags.CARRY
  let value1 := (value <<< 1) % 256
  let value2 := if old_carry then value1 ||| 1 else value1
  let s2 := { s1 with register_a := value2 }
  update_zero_and_negative_flags s2 s2.register_a

/-- Source `CPU::rol` (memory form, returns the rotated value). -/
def rol (s : CPUState) (mode : AddressingMode) : Option (CPUState × Nat) :=
  (get_operand_address s mode).map fun addr =>
    let value := memRead s addr
    let old_carry := statusContains s.status Flags.CARRY
    let s1 := if value >>> 7 = 1 then set_flag s Flags.CARRY else clear_flag s Flags.CARRY
    let value1 := (value <<< 1) % 256
    let value2 := if old_carry then value1 ||| 1 else value1
    let s2 := memWrite s1 addr value2
    (update_zero_and_negative_flags s2 value2, value2)

/-- Source `CPU::ror_acc`. -/
def ror_acc (s : CPUState) : CPUState :=
  let value := s.register_a
  let old_carry := statusContains s.status Flags.CARRY
  let s1 := if value &&& 1 = 1 then set_flag s Flags.CARRY else clear_flag s Flags.CARRY
  let value1 := value >>> 1
  let value2 := if old_carry then value1 ||| (1 <<< 7) else value1
  let s2 := { s1 with register_a := value2 }
  update_zero_and_negative_flags s2 s2.register_a

/-- Source `CPU::ror` (memory form, returns the rotated value). -/
def ror (s : CPUState) (mode : AddressingMode) : Option (CPUState × Nat) :=
  (get_operand_address s mode).map fun addr =>
    let value := memRead s addr
    let old_carry := statusContains s.status Flags.CARRY
    let s1 := if value &&& 1 = 1 then set_flag s Flags.CARRY else clear_flag s Flags.CARRY
    let value1 := value >>> 1
    let value2 := if old_carry then value1 ||| (1 <<< 7) else value1
    let s2 := memWrite s1 addr value2
    (update_zero_and_negative_flags s2 value2, value2)

/-- Source `CPU::sbc`: reads the operand, applies `sbcOperand`, and reuses
`add_to_register_a`. -/
def sbc (s : CPUState) (mode : AddressingMode) : Option CPUState :=
  (get_operand_address s mode).map fun addr =>
    add_to_register_a s (sbcOperand (memRead s addr))

/-! ### Opcode table -/

/-- One entry of the opcode table: addressing mode and instruction length
in bytes. -/
structure OpCode where
  mode : AddressingMode
  len : Nat

/-- Modelled from the spec: the repository's `src/opcodes.rs`
(`OPCODE_MAP`, a lazy 256-entry table of `{mnemonic, length, cycles,
addressing_mode}`) is not under `src/`; only its uses in `cpu.rs` are.
Lengths and addressing modes follow the spec's addressing-mode table
(§4.1: Immediate/ZeroPage/Indirect modes are 2 bytes, Absolute modes 3,
implied/accumulator 1, branches carry one displacement byte), its opcode
families (§4.5), and the standard 6502 references the spec defers to.
Every opcode not listed is a one-byte implied instruction. -/
def OPCODE_MAP (opcode : Nat) : OpCode :=
  match opcode with
  | 0x69 | 0x29 | 0xc9 | 0xe0 | 0xc0 | 0x49 | 0xa9 | 0xa2 | 0xa0 | 0x09 | 0xe9
  | 0x0b | 0x2b | 0x6b | 0x4b | 0xab | 0xcb | 0x80 | 0x82 | 0x89 | 0xc2 | 0xe2
  | 0xeb | 0x8b => ⟨.Immediate, 2⟩
  | 0x65 | 0x25 | 0x06 | 0x24 | 0xc5 | 0xe4 | 0xc4 | 0xc6 | 0x45 | 0xe6 | 0xa5
  | 0xa6 | 0xa4 | 0x46 | 0x05 | 0x26 | 0x66 | 0xe5 | 0x85 | 0x86 | 0x84 | 0x87
  | 0xc7 | 0x04 | 0x44 | 0x64 | 0xe7 | 0xa7 | 0x27 | 0x67 | 0x07 | 0x47 =>
      ⟨.ZeroPage, 2⟩
  | 0x75 | 0x35 | 0x16 | 0xd5 | 0xd6 | 0x55 | 0xf6 | 0xb5 | 0xb4 | 0x56 | 0x15
  | 0x36 | 0x76 | 0xf5 | 0x95 | 0x94 | 0xd7 | 0x14 | 0x34 | 0x54 | 0x74 | 0xd4
  | 0xf4 | 0xf7 | 0x37 | 0x77 | 0x17 | 0x57 => ⟨.ZeroPage_X, 2⟩
  | 0xb6 | 0x96 | 0x97 | 0xb7 => ⟨.ZeroPage_Y, 2⟩
  | 0x6d | 0x2d | 0x0e | 0x2c | 0xcd | 0xec | 0xcc | 0xce | 0x4d | 0xee | 0xad
  | 0xae | 0xac | 0x4e | 0x0d | 0x2e | 0x6e | 0xed | 0x8d | 0x8e | 0x8c | 0x8f
  | 0xcf | 0xef | 0xaf | 0x2f | 0x6f | 0x0f | 0x4f | 0x0c => ⟨.Absolute, 3⟩
  | 0x7d | 0x3d | 0x1e | 0xdd | 0xde | 0x5d | 0xfe | 0xbd | 0xbc | 0x5e | 0x1d
  | 0x3e | 0x7e | 0xfd | 0x9d | 0xdf | 0xff | 0x3f | 0x7f | 0x1f | 0x5f | 0x1c
  | 0x3c | 0x5c | 0x7c | 0xdc | 0xfc | 0x9c => ⟨.Absolute_X, 3⟩
  | 0x79 | 0x39 | 0xd9 | 0x59 | 0xb9 | 0xbe | 0x19 | 0xf9 | 0x99 | 0x9f | 0xdb
  | 0xfb | 0xbb | 0xbf | 0x3b | 0x7b | 0x1b | 0x5b | 0x9e | 0x9b =>
      ⟨.Absolute_Y, 3⟩
  | 0x61 | 0x21 | 0xc1 | 0x41 | 0xa1 | 0x01 | 0xe1 | 0x81 | 0x83 | 0xc3 | 0xe3
  | 0xa3 | 0x23 | 0x63 | 0x03 | 0x43 => ⟨.Indirect_X, 2⟩
  | 0x71 | 0x31 | 0xd1 | 0x51 | 0xb1 | 0x11 | 0xf1 | 0x91 | 0x93 | 0xd3 | 0xf3
  | 0xb3 | 0x33 | 0x73 | 0x13 | 0x53 => ⟨.Indirect_Y, 2⟩
  | 0x90 | 0xb0 | 0x10 | 0x30 | 0x50 | 0x70 | 0xd0 | 0xf0 => ⟨.NoneAddressing, 2⟩
  | 0x4c | 0x6c | 0x20 => ⟨.NoneAddressing, 3⟩
  | _ => ⟨.NoneAddressing, 1⟩

/-! ### The execution loop -/

/-- The outcome of one iteration of the `run_with_callback` loop body:
`ret` models the `return` statement (BRK), `next` falling through to the
next fetch, `err` a panic inside the iteration. -/
inductive StepResult where
  | ret (s : CPUState)
  | next (s : CPUState)
  | err

/-- True exactly on the `ret` outcome. -/
def StepResult.isRet : StepResult → Bool
  | .ret _ => true
  | _ => false

/-- Lift the `Option`-valued instruction helpers into a step outcome. -/
def StepResult.ofOpt : Option CPUState → StepResult
  | some s => .next s
  | none => .err

/-- Run an address-taking arm body: resolve the effective address or
fail like the source's `get_operand_address` panic. -/
def withAddr (s : CPUState) (mode : AddressingMode) (k : Nat → StepResult) : StepResult :=
  match get_operand_address s mode with
  | some addr => k addr
  | none => .err

/-- The state after the opcode fetch: `self.program_counter += 1`. -/
def fetchState (s : CPUState) : CPUState :=
  { s with program_counter := wrap16 (s.program_counter + 1) }

set_option maxHeartbeats 3200000 in
/-- The big dispatch `match opcode { .. }` of `run_with_callback`,
applied to the post-fetch state.  Arm order and grouping follow the
source; `opcode ≥ 256` is unreachable from `cpuStep` (the scrutinee is a
byte) and maps to `err`. -/
def execOpcode (s : CPUState) (opcode : Nat) : StepResult :=
  match opcode with
  -- ADC
  | 0x69 | 0x65 | 0x75 | 0x6d | 0x7d | 0x79 | 0x61 | 0x71 =>
      .ofOpt (adc s (OPCODE_MAP opcode).mode)
  -- AND
  | 0x29 | 0x25 | 0x35 | 0x2d | 0x3d | 0x39 | 0x21 | 0x31 =>
      .ofOpt (and s (OPCODE_MAP opcode).mode)
  -- ASL
  | 0x0a | 0x06 | 0x16 | 0x1e | 0x0e =>
      match asl s (OPCODE_MAP opcode).mode with
      | some (s1, _) => .next s1
      | none => .err
  -- BCC
  | 0x90 => .next (branch s (!statusContains s.status Flags.CARRY))
  -- BCS
  | 0xb0 => .next (branch s (statusContains s.status Flags.CARRY))
  -- BPL
  | 0x10 => .next (branch s (!statusContains s.status Flags.NEGATIVE))
  -- BMI
  | 0x30 => .next (branch s (statusContains s.status Flags.NEGATIVE))
  -- BVC
  | 0x50 => .next (branch s (!statusContains s.status Flags.OVERFLOW))
  -- BVS
  | 0x70 => .next (branch s (statusContains s.status Flags.OVERFLOW))
  -- BNE
  | 0xd0 => .next (branch s (!statusContains s.status Flags.ZERO))
  -- BEQ
  | 0xf0 => .next (branch s (statusContains s.status Flags.ZERO))
  -- BRK: `return`
  | 0x00 => .ret s
  -- BIT
  | 0x24 | 0x2c => .ofOpt (bit s (OPCODE_MAP opcode).mode)
  -- CLC
  | 0x18 => .next (clear_flag s Flags.CARRY)
  -- CLD
  | 0xd8 => .next (clear_flag s Flags.DECIMAL_MODE)
  -- CLI
  | 0x58 => .next (clear_flag s Flags.INTERRUPT_DISABLE)
  -- CLV
  | 0xb8 => .next (clear_flag s Flags.OVERFLOW)
  -- CMP
  | 0xc9 | 0xc5 | 0xd5 | 0xcd | 0xdd | 0xd9 | 0xc1 | 0xd1 =>
      .ofOpt (compare s (OPCODE_MAP opcode).mode s.register_a)
  -- CPX
  | 0xe0 | 0xe4 | 0xec => .ofOpt (compare s (OPCODE_MAP opcode).mode s.register_x)
  -- CPY
  | 0xc0 | 0xc4 | 0xcc => .ofOpt (compare s (OPCODE_MAP opcode).mode s.register_y)
  -- DEC
  | 0xc6 | 0xd6 | 0xce | 0xde => .ofOpt (dec s (OPCODE_MAP opcode).mode)
  -- DEX
  | 0xca => .next (dex s)
  -- DEY
  | 0x88 => .next (dey s)
  -- EOR
  | 0x49 | 0x45 | 0x55 | 0x4d | 0x5d | 0x59 | 0x41 | 0x51 =>
      .ofOpt (eor s (OPCODE_MAP opcode).mode)
  -- INC
  | 0xe6 | 0xf6 | 0xee | 0xfe =>
      match inc s (OPCODE_MAP opcode).mode with
      | some (s1, _) => .next s1
      | none => .err
  -- INX
  | 0xe8 => .next (inx s)
  -- INY
  | 0xc8 => .next (iny s)
  -- JMP Absolute
  | 0x4c => .next { s with program_counter := memReadU16 s s.program_counter }
  -- JMP Indirect (with the 6502 page-boundary bug)
  | 0x6c =>
      let addr := memReadU16 s s.program_counter
      let indirect_ref :=
        if addr &&& 0xff = 0xff then
          (memRead s (addr &&& 0xff00)) <<< 8 ||| memRead s addr
        else
          memReadU16 s addr
      .next { s with program_counter := indirect_ref }
  -- JSR
  | 0x20 =>
      let s1 := stack_push_u16 s (wrap16 (s.program_counter + 2 - 1))
      .next { s1 with program_counter := memReadU16 s1 s1.program_counter }
  -- LDA
  | 0xa9 | 0xa5 | 0xb5 | 0xad | 0xbd | 0xb9 | 0xa1 | 0xb1 =>
      .ofOpt (lda s (OPCODE_MAP opcode).mode)
  -- LDX
  | 0xa2 | 0xa6 | 0xb6 | 0xae | 0xbe => .ofOpt (ldx s (OPCODE_MAP opcode).mode)
  -- LDY
  | 0xa0 | 0xa4 | 0xb4 | 0xac | 0xbc => .ofOpt (ldy s (OPCODE_MAP opcode).mode)
  -- LSR
  | 0x4a => .next (lsr_acc s)
  | 0x46 | 0x56 | 0x4e | 0x5e =>
      match lsr s (OPCODE_MAP opcode).mode with
      | some (s1, _) => .next s1
      | none => .err
  -- NOP
  | 0xea => .next s
  -- ORA
  | 0x09 | 0x05 | 0x15 | 0x0d | 0x1d | 0x19 | 0x01 | 0x11 =>
      .ofOpt (ora s (OPCODE_MAP opcode).mode)
  -- PHA
  | 0x48 => .next (stack_push s s.register_a)
  -- PHP
  | 0x08 => .next (php s)
  -- PLA
  | 0x68 =>
      let (s1, value) := stack_pop s
      .next (update_zero_and_negative_flags { s1 with register_a := value } value)
  -- PLP
  | 0x28 =>
      let (s1, value) := stack_pop s
      .next { s1 with status := statusInsert (statusRemove value Flags.BREAK) Flags.UNUSED }
  -- ROL
  | 0x2a => .next (rol_acc s)
  | 0x26 | 0x36 | 0x2e | 0x3e =>
      match rol s (OPCODE_MAP opcode).mode with
      | some (s1, _) => .next s1
      | none => .err
  -- ROR
  | 0x6a => .next (ror_acc s)
  | 0x66 | 0x76 | 0x6e | 0x7e =>
      match ror s (OPCODE_MAP opcode).mode with
      | some (s1, _) => .next s1
      | none => .err
  -- RTI
  | 0x40 =>
      let (s1, value) := stack_pop s
      let s2 := { s1 with status := statusInsert (statusRemove value Flags.BREAK) Flags.UNUSED }
      let (s3, pc) := stack_pop_u16 s2
      .next { s3 with program_counter := pc }
  -- RTS
  | 0x60 =>
      let (s1, value) := stack_pop_u16 s
      .next { s1 with program_counter := wrap16 (value + 1) }
  -- SBC
  | 0xe9 | 0xe5 | 0xf5 | 0xed | 0xfd | 0xf9 | 0xe1 | 0xf1 =>
      .ofOpt (sbc s (OPCODE_MAP opcode).mode)
  -- SEC
  | 0x38 => .next (set_flag s Flags.CARRY)
  -- SED
  | 0xf8 => .next (set_flag s Flags.DECIMAL_MODE)
  -- SEI
  | 0x78 => .next (set_flag s Flags.INTERRUPT_DISABLE)
  -- STA
  | 0x85 | 0x95 | 0x8d | 0x9d | 0x99 | 0x81 | 0x91 =>
      withAddr s (OPCODE_MAP opcode).mode fun addr =>
        .next (memWrite s addr s.register_a)
  -- STX
  | 0x86 | 0x96 | 0x8e =>
      withAddr s (OPCODE_MAP opcode).mode fun addr =>
        .next (memWrite s addr s.register_x)
  -- STY
  | 0x84 | 0x94 | 0x8c =>
      withAddr s (OPCODE_MAP opcode).mode fun addr =>
        .next (memWrite s addr s.register_y)
  -- TAX
  | 0xaa =>
      let s1 := { s with register_x := s.register_a }
      .next (update_zero_and_negative_flags s1 s1.register_x)
  -- TAY
  | 0xa8 =>
      let s1 := { s with register_y := s.register_a }
      .next (update_zero_and_negative_flags s1 s1.register_y)
  -- TSX
  | 0xba =>
      let s1 := { s with register_x := s.stack_ptr }
      .next (update_zero_and_negative_flags s1 s1.register_x)
  -- TXA
  | 0x8a =>
      let s1 := { s with register_a := s.register_x }
      .next (update_zero_and_negative_flags s1 s1.register_a)
  -- TXS
  | 0x9a => .next { s with stack_ptr := s.register_x }
  -- TYA
  | 0x98 =>
      let s1 := { s with register_a := s.register_y }
      .next (update_zero_and_negative_flags s1 s1.register_a)
  -- unofficial: ANC
  | 0x0b | 0x2b =>
      withAddr s (OPCODE_MAP opcode).mode fun addr =>
        let data := memRead s addr
        let s1 := { s with register_a := data &&& s.register_a }
        let s2 := update_zero_and_negative_flags s1 s1.register_a
        .next (if statusContains s2.status Flags.NEGATIVE then
                 set_flag s2 Flags.CARRY
               else
                 clear_flag s2 Flags.CARRY)
  -- unofficial: AAX (SAX)
  | 0x87 | 0x97 | 0x83 | 0x8f =>
      withAddr s (OPCODE_MAP opcode).mode fun addr =>
        .next (memWrite s addr (s.register_x &&& s.register_a))
  -- unofficial: ARR
  | 0x6b =>
      withAddr s (OPCODE_MAP opcode).mode fun addr =>
        let data := memRead s addr
        let s1 := { s with register_a := s.register_a &&& data }
        let s2 := update_zero_and_negative_flags s1 s1.register_a
        let s3 := ror_acc s2
        let result := s3.register_a
        let bit_5 := (result >>> 5) &&& 1
        let bit_6 := (result >>> 6) &&& 1
        let s4 := if bit_6 = 1 then set_flag s3 Flags.CARRY else clear_flag s3 Flags.CARRY
        let s5 :=
          if bit_5 ^^^ bit_6 = 1 then set_flag s4 Flags.OVERFLOW
          else clear_flag s4 Flags.OVERFLOW
        .next (update_zero_and_negative_flags s5 result)
  -- unofficial: ASR (ALR)
  | 0x4b =>
      withAddr s (OPCODE_MAP opcode).mode fun addr =>
        let data := memRead s addr
        let s1 := { s with register_a := s.register_a &&& data }
        let s2 := update_zero_and_negative_flags s1 s1.register_a
        .next (lsr_acc s2)
  -- unofficial: ATX (LXA)
  | 0xab =>
      match lda s (OPCODE_MAP opcode).mode with
      | none => .err
      | some s1 =>
          let s2 := { s1 with register_x := s1.register_a }
          .next (update_zero_and_negative_flags s2 s2.register_x)
  -- unofficial: AXA (SHA)
  | 0x9f | 0x93 =>
      withAddr s (OPCODE_MAP opcode).mode fun addr =>
        .next (memWrite s addr (s.register_x &&& s.register_a &&& ((addr >>> 8) % 256)))
  -- unofficial: AXS (SBX): note the `if` with no `else`, and the final
  -- `update_carry_flag(result)` (Carry from bit 7 of the result)
  | 0xcb =>
      withAddr s (OPCODE_MAP opcode).mode fun addr =>
        let data := memRead s addr
        let x_and_a := s.register_x &&& s.register_a
        let result := u8_sub x_and_a data
        let s1 := if data ≤ x_and_a then set_flag s Flags.CARRY else s
        let s2 := { s1 with register_x := result }
        .next (update_carry_flag s2 result)
  -- unofficial: DCP: note the `if` with no `else` on Carry
  | 0xc7 | 0xd7 | 0xcf | 0xdf | 0xdb | 0xc3 | 0xd3 =>
      withAddr s (OPCODE_MAP opcode).mode fun addr =>
        let data := memRead s addr
        let result := u8_sub data 1
        let s1 := memWrite s addr result
        let s2 := if result ≤ s1.register_a then set_flag s1 Flags.CARRY else s1
        .next (update_zero_and_negative_flags s2 (u8_sub s2.register_a result))
  -- unofficial: DOP (read and discard)
  | 0x04 | 0x14 | 0x34 | 0x44 | 0x54 | 0x64 | 0x74 | 0x80 | 0x82 | 0x89 | 0xc2
  | 0xd4 | 0xe2 | 0xf4 =>
      withAddr s (OPCODE_MAP opcode).mode fun _ => .next s
  -- unofficial: ISC (ISB)
  | 0xe7 | 0xf7 | 0xef | 0xff | 0xfb | 0xe3 | 0xf3 =>
      match inc s (OPCODE_MAP opcode).mode with
      | none => .err
      | some (s1, data) => .next (add_to_register_a s1 (sbcOperand data))
  -- unofficial: KIL (JAM): `// do nothing`
  | 0x02 | 0x12 | 0x22 | 0x32 | 0x42 | 0x52 | 0x62 | 0x72 | 0x92 | 0xb2 | 0xd2
  | 0xf2 => .next s
  -- unofficial: LAR (LAS)
  | 0xbb =>
      withAddr s (OPCODE_MAP opcode).mode fun addr =>
        let data := memRead s addr
        let m := data &&& s.stack_ptr
        let s1 := { s with register_a := m, register_x := m, stack_ptr := m }
        .next (update_zero_and_negative_flags s1 m)
  -- unofficial: LAX
  | 0xa7 | 0xb7 | 0xaf | 0xbf | 0xa3 | 0xb3 =>
      withAddr s (OPCODE_MAP opcode).mode fun addr =>
        let data := memRead s addr
        let s1 := { s with register_a := data, register_x := data }
        .next (update_zero_and_negative_flags s1 data)
  -- unofficial: single-byte NOPs
  | 0x1a | 0x3a | 0x5a | 0x7a | 0xda | 0xfa => .next s
  -- unofficial: RLA
  | 0x27 | 0x37 | 0x2f | 0x3f | 0x3b | 0x23 | 0x33 =>
      match rol s (OPCODE_MAP opcode).mode with
      | none => .err
      | some (s1, data) =>
          let s2 := { s1 with register_a := s1.register_a &&& data }
          .next (update_zero_and_negative_flags s2 s2.register_a)
  -- unofficial: RRA
  | 0x67 | 0x77 | 0x6f | 0x7f | 0x7b | 0x63 | 0x73 =>
      match ror s (OPCODE_MAP opcode).mode with
      | none => .err
      | some (s1, data) => .next (add_to_register_a s1 data)
  -- unofficial: SBC immediate
  | 0xeb =>
      withAddr s (OPCODE_MAP opcode).mode fun addr =>
        .next (add_to_register_a s (sbcOperand (memRead s addr)))
  -- unofficial: SLO (ASO)
  | 0x07 | 0x17 | 0x0f | 0x1f | 0x1b | 0x03 | 0x13 =>
      match asl s (OPCODE_MAP opcode).mode with
      | none => .err
      | some (s1, data) =>
          let s2 := { s1 with register_a := s1.register_a ||| data }
          .next (update_zero_and_negative_flags s2 s2.register_a)
  -- unofficial: SRE (LSE)
  | 0x47 | 0x57 | 0x4f | 0x5f | 0x5b | 0x43 | 0x53 =>
      match lsr s (OPCODE_MAP opcode).mode with
      | none => .err
      | some (s1, data) =>
          let s2 := { s1 with register_a := s1.register_a ^^^ data }
          .next (update_zero_and_negative_flags s2 s2.register_a)
  -- unofficial: SXA (SHX); `+` on `u16`/`u8` modelled as wrapping
  | 0x9e =>
      let mem_addr := wrap16 (memReadU16 s s.program_counter + s.register_y)
      let data := s.register_a &&& s.register_x &&& u8_add ((mem_addr >>> 8) % 256) 1
      .next (memWrite s mem_addr data)
  -- unofficial: SYA (SHY)
  | 0x9c =>
      let mem_addr := wrap16 (memReadU16 s s.program_counter + s.register_x)
      let data := s.register_y &&& u8_add ((mem_addr >>> 8) % 256) 1
      .next (memWrite s mem_addr data)
  -- unofficial: TOP (read and discard)
  | 0x0c | 0x1c | 0x3c | 0x5c | 0x7c | 0xdc | 0xfc =>
      withAddr s (OPCODE_MAP opcode).mode fun _ => .next s
  -- unofficial: XAA (ANE): `A ← X` first, then `A ← M & A`
  | 0x8b =>
      let s1 := { s with register_a := s.register_x }
      let s2 := update_zero_and_negative_flags s1 s1.register_a
      withAddr s2 (OPCODE_MAP opcode).mode fun addr =>
        let data := memRead s2 addr
        let s3 := { s2 with register_a := data &&& s2.register_a }
        .next (update_zero_and_negative_flags s3 s3.register_a)
  -- unofficial: XAS (TAS)
  | 0x9b =>
      let s1 := { s with stack_ptr := s.register_a &&& s.register_x }
      let mem_addr := wrap16 (memReadU16 s1 s1.program_counter + s1.register_y)
      let data := u8_add ((mem_addr >>> 8) % 256) 1 &&& s1.stack_ptr
      .next (memWrite s1 mem_addr data)
  | _ => .err

/-- The tail of the loop body: `if program_counter_state == self.program_counter
{ self.program_counter += (length - 1) as u16 }`, applied to the dispatch
outcome (`s` is the pre-fetch state, so `program_counter_state` is
`(fetchState s).program_counter`). -/
def stepAdjust (s : CPUState) (opcode : Nat) : StepResult → StepResult
  | .ret t => .ret t
  | .err => .err
  | .next t =>
      .next
        (if (fetchState s).program_counter = t.program_counter then
          { t with program_counter :=
              wrap16 (t.program_counter + ((OPCODE_MAP opcode).len - 1)) }
        else t)

/-- One iteration of the `run_with_callback` loop: fetch the opcode,
increment PC, dispatch, and add `length - 1` to PC only when the
instruction did not modify PC (the callback is the identity, as in
`run`). -/
def cpuStep (s : CPUState) : StepResult :=
  stepAdjust s (memRead s s.program_counter)
    (execOpcode (fetchState s) (memRead s s.program_counter))

/-- Source `CPU::run` with explicit fuel: `some` is the loop's `return` (BRK),
`none` is fuel exhaustion or a panic. -/
def runFuel : Nat → CPUState → Option CPUState
  | 0, _ => none
  | n + 1, s =>
      match cpuStep s with
      | .ret s1 => some s1
      | .next s1 => runFuel n s1
      | .err => none

/-! ### Observers and concrete states used by the claim theorems -/

/-- Project the fall-through state out of a step outcome. -/
def stepState : StepResult → Option CPUState
  | .next s => some s
  | _ => none

/-- Condition under which the eight branch dispatch arms take the branch
(`0x90` BCC, `0xB0` BCS, `0x10` BPL, `0x30` BMI, `0x50` BVC, `0x70` BVS,
`0xD0` BNE, `0xF0` BEQ); `false` on every other opcode. -/
def branchCondition (opcode status : Nat) : Bool :=
  if opcode = 0x90 then !statusContains status Flags.CARRY
  else if opcode = 0xb0 then statusContains status Flags.CARRY
  else if opcode = 0x10 then !statusContains status Flags.NEGATIVE
  else if opcode = 0x30 then statusContains status Flags.NEGATIVE
  else if opcode = 0x50 then !statusContains status Flags.OVERFLOW
  else if opcode = 0x70 then statusContains status Flags.OVERFLOW
  else if opcode = 0xd0 then !statusContains status Flags.ZERO
  else if opcode = 0xf0 then statusContains status Flags.ZERO
  else false

/-- The twelve KIL/JAM opcodes of the dispatch. -/
def kilOpcodes : List Nat :=
  [0x02, 0x12, 0x22, 0x32, 0x42, 0x52, 0x62, 0x72, 0x92, 0xb2, 0xd2, 0xf2]

/-- The seven DCP opcodes of the dispatch. -/
def dcpOpcodes : List Nat := [0xc7, 0xd7, 0xcf, 0xdf, 0xdb, 0xc3, 0xd3]

/-- Reachability invariant for the PPU address register: both bytes stay
bytes and the combined value stays within 14 bits. -/
def AddrInv (r : AddrRegister) : Prop :=
  r.hi < 256 ∧ r.lo < 256 ∧ r.get ≤ 0x3fff

/-- A bus with zeroed RAM and a 16 KiB program ROM. -/
def exBus : Bus := Bus.new ⟨List.replicate 0x4000 0⟩

/-- Memory holding a single KIL opcode `0x02` at `0x0600` (zero elsewhere,
so the following fetch sees BRK). -/
def memKil : Nat → Nat := fun a => if a = 0x0600 then 0x02 else 0x00

/-- CPU about to execute the KIL opcode `0x02`. -/
def exKil : CPUState := ⟨0, 0, 0, 0x24, 0x0600, 0xfd, memKil⟩

/-- CPU with zeroed memory, about to execute BRK. -/
def exBrk : CPUState := ⟨0, 0, 0, 0x24, 0x0600, 0xfd, fun _ => 0⟩

/-- Memory holding `BEQ -1` (`0xF0 0xFF`) at `0x0600`. -/
def memBeq : Nat → Nat :=
  fun a => if a = 0x0600 then 0xf0 else if a = 0x0601 then 0xff else 0

/-- CPU with the Zero flag set, about to take `BEQ -1`. -/
def exBeq : CPUState := ⟨0, 0, 0, 0x26, 0x0600, 0xfd, memBeq⟩

/-- Memory holding `BCS +5` (`0xB0 0x05`) at `0x0000`. -/
def memBcs : Nat → Nat :=
  fun a => if a = 0 then 0xb0 else if a = 1 then 0x05 else 0

/-- CPU with the Carry flag set, about to take `BCS +5`. -/
def exBcs : CPUState := ⟨0, 0, 0, 0x25, 0, 0xfd, memBcs⟩

/-- CPU with zeroed state used to instantiate the ADC/SBC duality. -/
def exZero : CPUState := ⟨0, 0, 0, 0x24, 0, 0xfd, fun _ => 0⟩

/-- Memory holding `AXS #0` (`0xCB 0x00`) at `0x0600`. -/
def memAxs : Nat → Nat := fun a => if a = 0x0600 then 0xcb else 0

/-- CPU with `A = 0x40`, `X = 0xFF` (so `A & X = 0x40`), Zero set and
Carry clear (`P = 0x26`), about to execute `AXS #0`. -/
def exAxs : CPUState := ⟨0x40, 0xff, 0, 0x26, 0x0600, 0xfd, memAxs⟩

/-- Memory holding `DCP $10` (`0xC7 0x10`) at `0x0600` and `2` at `0x10`. -/
def memDcp : Nat → Nat := fun a =>
  if a = 0x0600 then 0xc7 else if a = 0x0601 then 0x10 else if a = 0x10 then 2 else 0

/-- CPU with `A = 0`, Carry set (`P = 0x25`), about to execute `DCP $10`
on a cell holding `2` (the decremented value `1` exceeds `A`). -/
def exDcp : CPUState := ⟨0, 0, 0, 0x25, 0x0600, 0xfd, memDcp⟩

/-- Memory holding `XAA #$FF` (`0x8B 0xFF`) at `0x0600`. -/
def memXaa : Nat → Nat :=
  fun a => if a = 0x0600 then 0x8b else if a = 0x0601 then 0xff else 0

/-- CPU with `A = 0xFF` and `X = 0`, about to execute `XAA #$FF`. -/
def exXaa : CPUState := ⟨0xff, 0, 0, 0x24, 0x0600, 0xfd, memXaa⟩

/-! ## Theorems

Shared helper lemmas come first, then one theorem per claim (with its
witness or counterexample where applicable). -/

/-- Writing a 16-bit value into the register and reading it back is the
identity. -/
theorem set_get (r : AddrRegister) (d : Nat) (h : d < 65536) : (r.set d).get = d := by
  have hdiv : d / 256 < 256 := by omega
  have h255 : (0xff : Nat) = 2 ^ 8 - 1 := rfl
  simp only [AddrRegister.set, AddrRegister.get]
  rw [Nat.shiftRight_eq_div_pow]
  norm_num
  rw [Nat.mod_eq_of_lt hdiv, Nat.shiftLeft_eq, h255,
    Nat.and_pow_two_sub_one_eq_mod]
  rw [Nat.mul_comm, ← Nat.mul_add_lt_is_or (by omega : d % 256 < 2 ^ 8)]
  omega

/-- Flipping the write latch does not change the combined value. -/
theorem get_hi_ptr (r : AddrRegister) (b : Bool) :
    ({ r with hi_ptr := b } : AddrRegister).get = r.get := rfl

/-- Masking to 14 bits bounds the value. -/
theorem masked_lt (x : Nat) : x &&& 0x3fff ≤ 0x3fff := Nat.and_le_right

/-- Setting a 14-bit value preserves the register invariant. -/
theorem set_inv (r : AddrRegister) (d : Nat) (h : d ≤ 0x3fff) : AddrInv (r.set d) := by
  refine ⟨?_, ?_, ?_⟩
  · simp only [AddrRegister.set]
    exact Nat.mod_lt _ (by omega)
  · simp only [AddrRegister.set]
    have : d &&& 0xff ≤ 0xff := Nat.and_le_right
    omega
  · rw [set_get _ _ (by omega)]
    omega

/-- The register invariant is preserved by `update`. -/
theorem update_inv (r : AddrRegister) (d : Nat) (h : AddrInv r) :
    AddrInv (r.update d) := by
  obtain ⟨h1, h2, h3⟩ := h
  simp only [AddrRegister.update]
  set r1 := if r.hi_ptr then { r with hi := d % 256 } else { r with lo := d % 256 } with hr1
  have hr1hi : r1.hi < 256 := by
    rw [hr1]; split <;> simp <;> omega
  have hr1lo : r1.lo < 256 := by
    rw [hr1]; split <;> simp <;> omega
  by_cases h : r1.get > 0x3fff
  · rw [if_pos h]
    have := set_inv r1 (r1.get &&& 0x3fff) (masked_lt _)
    exact ⟨this.1, this.2.1, by rw [get_hi_ptr]; exact this.2.2⟩
  · rw [if_neg h]
    exact ⟨hr1hi, hr1lo, by rw [get_hi_ptr]; omega⟩

/-- The register invariant is preserved by `increment`. -/
theorem increment_inv (r : AddrRegister) (inc : Nat) (h : AddrInv r) :
    AddrInv (r.increment inc) := by
  obtain ⟨h1, h2, h3⟩ := h
  simp only [AddrRegister.increment]
  set r1 := { r with lo := (r.lo + inc % 256) % 256 } with hr1
  set r2 := if r.lo > r1.lo then { r1 with hi := (r1.hi + 1) % 256 } else r1 with hr2
  have hr2hi : r2.hi < 256 := by
    rw [hr2]; split
    · simp only []
      exact Nat.mod_lt _ (by omega)
    · rw [hr1]; exact h1
  have hr2lo : r2.lo < 256 := by
    rw [hr2]; split
    · simp only [hr1]
      exact Nat.mod_lt _ (by omega)
    · rw [hr1]
      exact Nat.mod_lt _ (by omega)
  by_cases h : r2.get > 0x3fff
  · rw [if_pos h]
    exact set_inv r2 _ (masked_lt _)
  · rw [if_neg h]
    exact ⟨hr2hi, hr2lo, by omega⟩

/-- With a byte in the low half, the combined value is the usual base-256
recomposition. -/
theorem get_eq_add (r : AddrRegister) (h2 : r.lo < 256) :
    r.get = 256 * r.hi + r.lo := by
  simp only [AddrRegister.get]
  rw [Nat.shiftLeft_eq, Nat.mul_comm, ← Nat.mul_add_lt_is_or (by omega : r.lo < 2 ^ 8)]

/-- On an in-invariant register, `increment` adds the (byte) step with
8-bit carry into the high byte and re-masks to 14 bits. -/
theorem increment_char (r : AddrRegister) (inc : Nat) (h : AddrInv r) :
    (r.increment inc).get = (r.get + inc % 256) % 0x4000 := by
  obtain ⟨h1, h2, h3⟩ := h
  have hget : r.get = 256 * r.hi + r.lo := get_eq_add r h2
  have hhi : r.hi ≤ 63 := by omega
  have hk : inc % 256 < 256 := Nat.mod_lt _ (by omega)
  simp only [AddrRegister.increment]
  set k := inc % 256 with hkdef
  set r1 := { r with lo := (r.lo + k) % 256 } with hr1
  set r2 := if r.lo > r1.lo then { r1 with hi := (r1.hi + 1) % 256 } else r1 with hr2
  have hr1lo : r1.lo = (r.lo + k) % 256 := rfl
  have hget2 : r2.get = r.get + k := by
    by_cases hcase : r.lo + k < 256
    · have hlo : r1.lo = r.lo + k := by rw [hr1lo, Nat.mod_eq_of_lt hcase]
      have hnc : ¬ (r.lo > r1.lo) := by omega
      rw [hr2, if_neg hnc, get_eq_add r1 (by omega)]
      have : r1.hi = r.hi := rfl
      rw [this, hlo]
      omega
    · have hlo : r1.lo = r.lo + k - 256 := by
        rw [hr1lo]; omega
      have hc : r.lo > r1.lo := by omega
      rw [hr2, if_pos hc]
      rw [get_eq_add _ (by simp only [hr1]; omega)]
      have hhi1 : r1.hi = r.hi := rfl
      simp only [hhi1, hlo]
      rw [Nat.mod_eq_of_lt (by omega : r.hi + 1 < 256)]
      omega
  by_cases hbig : r2.get > 0x3fff
  · rw [if_pos hbig]
    have h14 : (0x3fff : Nat) = 2 ^ 14 - 1 := rfl
    rw [set_get _ _ (by have := masked_lt r2.get; omega), h14,
      Nat.and_pow_two_sub_one_eq_mod, hget2]
  · rw [if_neg hbig, hget2]
    rw [Nat.mod_eq_of_lt (by omega)]

/-- Any operation sequence preserves the register invariant. -/
theorem applyOps_inv (ops : List AddrOp) :
    ∀ r, AddrInv r → AddrInv (applyOps r ops) := by
  induction ops with
  | nil => intro r h; exact h
  | cons o t ih =>
      intro r h
      cases o with
      | update d => exact ih _ (update_inv r d h)
      | increment i => exact ih _ (increment_inv r i h)

/-- The freshly constructed register satisfies the invariant. -/
theorem new_inv : AddrInv AddrRegister.new := by
  refine ⟨?_, ?_, ?_⟩ <;> decide

/-- C9: after every sequence of `update`/`increment` operations on a fresh
PPU address register the combined value `get` is at most `0x3FFF`, and on
any reachable register `increment` adds the byte step to the low byte with
8-bit carry into the high byte and re-masks to 14 bits, i.e. the new
combined value is `(old + step) % 0x4000`. -/
theorem c9_addr_register_invariant (ops : List AddrOp) (inc : Nat) :
    (applyOps AddrRegister.new ops).get ≤ 0x3fff ∧
    ((applyOps AddrRegister.new ops).increment inc).get
      = ((applyOps AddrRegister.new ops).get + inc % 256) % 0x4000 := by
  have h := applyOps_inv ops AddrRegister.new new_inv
  exact ⟨h.2.2, increment_char _ inc h⟩

/-- C7: RAM reads through the bus are mirrored modulo `0x800`. -/
theorem c7_ram_read_mirroring (b : Bus) (a : Nat) (h : a < 0x2000) :
    Bus.mem_read b a = Bus.mem_read b (a &&& 0x7ff) := by
  have h2 : a &&& 0x7ff ≤ 0x7ff := Nat.and_le_right
  simp only [Bus.mem_read]
  rw [if_pos (by omega : a ≤ 0x1fff), if_pos (by omega : a &&& 0x7ff ≤ 0x1fff),
    Nat.and_assoc, Nat.and_self]

/-- Witness for C7 at `a = 0x1234`. -/
theorem c7_ram_read_mirroring_witness :
    0x1234 < 0x2000 ∧ Bus.mem_read exBus 0x1234 = Bus.mem_read exBus (0x1234 &&& 0x7ff) :=
  ⟨by decide, c7_ram_read_mirroring exBus 0x1234 (by decide)⟩

/-- C6 counterexample: contrary to the claim, a read and a write at
`0x2000` (the PPU register window) both fail — the source executes
`todo!("PPU not supported yet")`, a panic, so the read returns no value
and the write does not complete. -/
theorem c6_ppu_window_counterexample :
    Bus.mem_read exBus 0x2000 = none ∧ Bus.mem_write exBus 0x2000 0 = none :=
  ⟨rfl, rfl⟩

/-- C6 (amended): every read and every write in `0x2000..=0x3FFF`
panics (`todo!`): no value is returned and no state results. -/
theorem c6_ppu_window_panics (b : Bus) (a v : Nat) (h1 : 0x2000 ≤ a) (h2 : a ≤ 0x3fff) :
    Bus.mem_read b a = none ∧ Bus.mem_write b a v = none := by
  constructor
  · simp only [Bus.mem_read]
    rw [if_neg (by omega), if_pos (by omega)]
  · simp only [Bus.mem_write]
    rw [if_neg (by omega), if_pos (by omega)]

/-- Witness for the amended C6 at `a = 0x2000`. -/
theorem c6_ppu_window_panics_witness :
    (0x2000 ≤ 0x2000 ∧ 0x2000 ≤ 0x3fff)
    ∧ Bus.mem_read exBus 0x2000 = none ∧ Bus.mem_write exBus 0x2000 7 = none :=
  ⟨⟨by decide, by decide⟩, c6_ppu_window_panics exBus 0x2000 7 (by decide) (by decide)⟩

/-- C10: a RAM write through the bus lands in exactly one underlying RAM
cell (`a &&& 0x7FF`); every mirror of that cell reads the new value back,
every other RAM address is unchanged, and the cartridge ROM is untouched. -/
theorem c10_ram_write_mirroring (b : Bus) (a v : Nat) (ha : a < 0x2000) :
    ∃ b', Bus.mem_write b a v = some b' ∧ b'.rom = b.rom ∧
      (∀ c, c < 0x2000 →
        (c &&& 0x7ff = a &&& 0x7ff → Bus.mem_read b' c = some v) ∧
        (c &&& 0x7ff ≠ a &&& 0x7ff → Bus.mem_read b' c = Bus.mem_read b c)) ∧
      (∀ i, i ≠ a &&& 0x7ff → b'.cpu_vram i = b.cpu_vram i) := by
  refine ⟨{ b with cpu_vram := fun i => if i = (a &&& 0x7ff) then v else b.cpu_vram i },
    ?_, rfl, ?_, ?_⟩
  · simp only [Bus.mem_write]
    rw [if_pos (by omega : a ≤ 0x1fff)]
  · intro c hc
    constructor
    · intro hm
      simp only [Bus.mem_read]
      rw [if_pos (by omega : c ≤ 0x1fff)]
      simp [hm]
    · intro hm
      simp only [Bus.mem_read]
      rw [if_pos (by omega : c ≤ 0x1fff), if_pos (by omega : c ≤ 0x1fff)]
      simp [hm]
  · intro i hi
    simp [hi]

/-- Witness for C10 at `a = 0x0801`, `v = 7` (mirror cell `0x0001`). -/
theorem c10_ram_write_mirroring_witness :
    0x0801 < 0x2000 ∧
    ∃ b', Bus.mem_write exBus 0x0801 7 = some b' ∧ b'.rom = exBus.rom ∧
      (∀ c, c < 0x2000 →
        (c &&& 0x7ff = 0x0801 &&& 0x7ff → Bus.mem_read b' c = some 7) ∧
        (c &&& 0x7ff ≠ 0x0801 &&& 0x7ff → Bus.mem_read b' c = Bus.mem_read exBus c)) ∧
      (∀ i, i ≠ 0x0801 &&& 0x7ff → b'.cpu_vram i = exBus.cpu_vram i) :=
  ⟨by decide, c10_ram_write_mirroring exBus 0x0801 7 (by decide)⟩

set_option maxRecDepth 10000 in
/-- C3: for every byte `M`, the SBC operand transform
`(M as i8).wrapping_neg().wrapping_sub(1) as u8` equals `M XOR 0xFF`, so
executing SBC with operand `M` from any CPU state yields exactly the same
state (accumulator and C, V, Z, N flags) as executing ADC, through the
shared `add_to_register_a`, with operand `M XOR 0xFF`. -/
theorem c3_sbc_is_adc_of_complement (s : CPUState) (m : Nat) (h : m < 256) :
    add_to_register_a s (sbcOperand m) = add_to_register_a s (m ^^^ 0xff) := by
  have key : ∀ n, n < 256 → sbcOperand n = n ^^^ 0xff := by decide
  rw [key m h]

/-- Witness for C3 at `m = 0x55` from the zeroed CPU state. -/
theorem c3_sbc_is_adc_of_complement_witness :
    0x55 < 256
    ∧ add_to_register_a exZero (sbcOperand 0x55) = add_to_register_a exZero (0x55 ^^^ 0xff) :=
  ⟨by decide, c3_sbc_is_adc_of_complement exZero 0x55 (by decide)⟩

/-- Reduction of the loop tail on a fall-through outcome. -/
theorem stepAdjust_next (s : CPUState) (op : Nat) (t : CPUState) :
    stepAdjust s op (.next t) =
      .next (if (fetchState s).program_counter = t.program_counter then
        { t with program_counter :=
            wrap16 (t.program_counter + ((OPCODE_MAP op).len - 1)) }
      else t) := rfl

/-- Program counter after the opcode fetch. -/
theorem fetchState_pc (s : CPUState) :
    (fetchState s).program_counter = wrap16 (s.program_counter + 1) := rfl

/-- Updating the program counter with its current value is the identity. -/
theorem setPc_self (t : CPUState) (p : Nat) (h : p = t.program_counter) :
    ({ t with program_counter := p } : CPUState) = t := by
  cases t; subst h; rfl

/-- Reads are bytes. -/
theorem memRead_lt (s : CPUState) (a : Nat) : memRead s a < 256 :=
  Nat.mod_lt _ (by omega)

/-- Reads are unaffected by the fetch increment. -/
theorem fetch_memRead (s : CPUState) (a : Nat) :
    memRead (fetchState s) a = memRead s a := rfl

/-- Wrapped byte subtraction produces a byte. -/
theorem u8_sub_lt (a b : Nat) : u8_sub a b < 256 := Nat.mod_lt _ (by omega)

/-- A 1-byte no-op dispatch arm makes the whole loop iteration advance PC
by exactly the fetch increment. -/
theorem kil_step (s : CPUState) (op : Nat)
    (hop : memRead s s.program_counter = op)
    (he : execOpcode (fetchState s) op = .next (fetchState s))
    (hlen : (OPCODE_MAP op).len = 1) :
    cpuStep s = .next (fetchState s) := by
  rw [cpuStep, hop, he, stepAdjust_next, if_pos rfl, hlen]
  rw [setPc_self]
  rw [fetchState_pc]
  unfold wrap16
  omega

/-- C1 (amended): the run loop exits when the fetched opcode is BRK
(`0x00`) — the dispatch executes `return` right after the fetch
increment.  The twelve KIL-class opcodes do NOT halt: their arm does
nothing, the loop adds `length - 1 = 0`, and execution continues with the
next fetch, the only state change being the PC stepping past the KIL
byte. -/
theorem c1_brk_returns_kil_continues (s : CPUState) :
    (memRead s s.program_counter = 0x00 → cpuStep s = .ret (fetchState s))
    ∧ (memRead s s.program_counter ∈ kilOpcodes → cpuStep s = .next (fetchState s)) := by
  constructor
  · intro h
    have he : execOpcode (fetchState s) 0 = .ret (fetchState s) := rfl
    rw [cpuStep, h, he]
    rfl
  · intro h
    simp only [kilOpcodes, List.mem_cons, List.not_mem_nil, or_false] at h
    rcases h with h|h|h|h|h|h|h|h|h|h|h|h <;> exact kil_step s _ h rfl rfl

/-- Witness for C1: the KIL opcode `0x02` falls through to the next fetch
and BRK returns. -/
theorem c1_brk_returns_kil_continues_witness :
    (memRead exKil exKil.program_counter ∈ kilOpcodes
      ∧ cpuStep exKil = .next (fetchState exKil))
    ∧ (memRead exBrk exBrk.program_counter = 0x00
      ∧ cpuStep exBrk = .ret (fetchState exBrk)) :=
  ⟨⟨by decide, (c1_brk_returns_kil_continues exKil).2 (by decide)⟩,
   ⟨by decide, (c1_brk_returns_kil_continues exBrk).1 (by decide)⟩⟩

/-- C1 counterexample: at a state whose fetched opcode is the KIL opcode
`0x02`, the loop body does not `return` (the outcome is not `ret`), one
loop iteration does not end the run (`runFuel 1` runs out of fuel instead
of returning), while two iterations do return — via the following BRK —
so the KIL opcode itself did not halt the CPU. -/
theorem c1_kil_counterexample :
    memRead exKil exKil.program_counter = 0x02
    ∧ (cpuStep exKil).isRet = false
    ∧ runFuel 1 exKil = none
    ∧ (runFuel 2 exKil).isSome = true :=
  ⟨rfl, rfl, rfl, rfl⟩

/-- Taking a branch rewrites PC to displacement address plus one plus the
sign-extended displacement. -/
theorem branch_true (t : CPUState) :
    branch t true =
      { t with program_counter := u16_add (u16_add t.program_counter 1) (signExtendU16 (memRead t t.program_counter)) } := rfl

/-- A taken branch arm with a displacement other than `-1` ends the loop
iteration with `PC = (displacement address + 1) + d` and no extra
`length - 1` advance. -/
theorem branch_taken_step (s : CPUState) (op : Nat) (c : Bool)
    (hop : memRead s s.program_counter = op)
    (he : execOpcode (fetchState s) op = .next (branch (fetchState s) c))
    (hc : c = true)
    (hm : memRead s (wrap16 (s.program_counter + 1)) ≠ 0xff) :
    cpuStep s = .next { s with program_counter := wrap16 (s.program_counter + 2 + signExtendU16 (memRead s (wrap16 (s.program_counter + 1)))) } := by
  subst hc
  rw [cpuStep, hop, he, branch_true, stepAdjust_next]
  have hmem : memRead (fetchState s) (fetchState s).program_counter
      = memRead s (wrap16 (s.program_counter + 1)) := rfl
  set m := memRead s (wrap16 (s.program_counter + 1)) with hmdef
  have hmlt : m < 256 := memRead_lt ..
  have hpc : u16_add (u16_add (fetchState s).program_counter 1)
      (signExtendU16 (memRead (fetchState s) (fetchState s).program_counter))
      = wrap16 (s.program_counter + 2 + signExtendU16 m) := by
    rw [hmem, fetchState_pc]
    unfold u16_add wrap16
    omega
  rw [hpc]
  have hne : (fetchState s).program_counter
      ≠ wrap16 (s.program_counter + 2 + signExtendU16 m) := by
    rw [fetchState_pc]
    unfold signExtendU16 wrap16
    split <;> omega
  rw [if_neg (by simpa using hne)]
  rfl

/-- C2 (amended): for every taken branch (all eight conditional opcodes)
whose signed displacement byte is not `0xFF` (`-1`), the instruction ends
with `PC = (address of the displacement byte + 1) + d` (16-bit wrap, `d`
sign-extended), and the loop adds no further `length - 1` because PC was
modified.  (For `d = -1` the branch target coincides with the remembered
PC, so the loop does advance PC by `length - 1 = 1`; see the
counterexample.) -/
theorem c2_taken_branch_target (s : CPUState)
    (h : branchCondition (memRead s s.program_counter) s.status = true)
    (hm : memRead s (wrap16 (s.program_counter + 1)) ≠ 0xff) :
    cpuStep s = .next { s with program_counter := wrap16 (s.program_counter + 2 + signExtendU16 (memRead s (wrap16 (s.program_counter + 1)))) } := by
  unfold branchCondition at h
  split_ifs at h with h0 h1 h2 h3 h4 h5 h6 h7
  · exact branch_taken_step s _ _ h0 rfl h hm
  · exact branch_taken_step s _ _ h1 rfl h hm
  · exact branch_taken_step s _ _ h2 rfl h hm
  · exact branch_taken_step s _ _ h3 rfl h hm
  · exact branch_taken_step s _ _ h4 rfl h hm
  · exact branch_taken_step s _ _ h5 rfl h hm
  · exact branch_taken_step s _ _ h6 rfl h hm
  · exact branch_taken_step s _ _ h7 rfl h hm

/-- Witness for C2: a taken `BCS +5` at PC `0` ends with `PC = 7`. -/
theorem c2_taken_branch_target_witness :
    cpuStep exBcs = .next { exBcs with program_counter := wrap16 (exBcs.program_counter + 2 + signExtendU16 (memRead exBcs (wrap16 (exBcs.program_counter + 1)))) } :=
  c2_taken_branch_target exBcs (by decide) (by decide)

/-- C2 counterexample: a taken `BEQ` with displacement `0xFF` (`-1`) at
`0x0600` ends the iteration with `PC = 0x0602`, not the claimed
`(0x0601 + 1) + (-1) = 0x0601`: the branch target equals the remembered
PC, so the loop adds `length - 1` after all. -/
theorem c2_branch_minus_one_counterexample :
    memRead exBeq exBeq.program_counter = 0xf0
    ∧ memRead exBeq (wrap16 (exBeq.program_counter + 1)) = 0xff
    ∧ (stepState (cpuStep exBeq)).map CPUState.program_counter = some 0x0602
    ∧ (0x0602 : Nat) ≠ wrap16 (0x0601 + 1 + signExtendU16 0xff) :=
  ⟨rfl, rfl, rfl, by decide⟩

/-- Resolving the effective address reduces an address-taking arm. -/
theorem withAddr_some (s : CPUState) (mode : AddressingMode) (addr : Nat)
    (k : Nat → StepResult) (h : get_operand_address s mode = some addr) :
    withAddr s mode k = k addr := by
  unfold withAddr
  rw [h]

/-- An or with a nonzero constant is nonzero. -/
theorem or_ne_zero_right (x c : Nat) (hc : c ≠ 0) : x ||| c ≠ 0 := by
  intro h
  apply hc
  apply Nat.eq_of_testBit_eq
  intro k
  have h2 := congrArg (fun n => n.testBit k) h
  simp only [Nat.testBit_or, Nat.zero_testBit, Bool.or_eq_false_iff] at h2
  simp [h2.2]

/-- Flag membership only depends on the masked value. -/
theorem contains_congr (st st' f : Nat) (h : st &&& f = st' &&& f) :
    statusContains st f = statusContains st' f := by
  unfold statusContains
  rw [h]

/-- Source `update_zero_and_negative_flags` expressed with `statusSet`. -/
theorem uzn_status (s : CPUState) (v : Nat) :
    (update_zero_and_negative_flags s v).status =
      statusSet (statusSet s.status Flags.ZERO (decide (v = 0))) Flags.NEGATIVE
        (decide (v &&& 0x80 ≠ 0)) := by
  unfold update_zero_and_negative_flags set_flag clear_flag statusSet
  by_cases h1 : v = 0 <;> by_cases h2 : v &&& 0x80 ≠ 0 <;>
    simp [h1, h2]

/-- Setting or clearing Zero leaves the Carry bit alone. -/
theorem setZ_and_one (st : Nat) (b : Bool) :
    statusSet st Flags.ZERO b &&& Flags.CARRY = st &&& Flags.CARRY := by
  cases b
  · show statusRemove st Flags.ZERO &&& Flags.CARRY = st &&& Flags.CARRY
    unfold statusRemove Flags.ZERO Flags.CARRY
    rw [Nat.and_assoc, (by decide : ((0xff : Nat) ^^^ 2) &&& 1 = 1)]
  · show statusInsert st Flags.ZERO &&& Flags.CARRY = st &&& Flags.CARRY
    unfold statusInsert Flags.ZERO Flags.CARRY
    rw [Nat.and_distrib_right, (by decide : ((2 : Nat) &&& 1) = 0), Nat.or_zero]

/-- Setting or clearing Negative leaves the Carry bit alone. -/
theorem setN_and_one (st : Nat) (b : Bool) :
    statusSet st Flags.NEGATIVE b &&& Flags.CARRY = st &&& Flags.CARRY := by
  cases b
  · show statusRemove st Flags.NEGATIVE &&& Flags.CARRY = st &&& Flags.CARRY
    unfold statusRemove Flags.NEGATIVE Flags.CARRY
    rw [Nat.and_assoc, (by decide : ((0xff : Nat) ^^^ 128) &&& 1 = 1)]
  · show statusInsert st Flags.NEGATIVE &&& Flags.CARRY = st &&& Flags.CARRY
    unfold statusInsert Flags.NEGATIVE Flags.CARRY
    rw [Nat.and_distrib_right, (by decide : ((128 : Nat) &&& 1) = 0), Nat.or_zero]

/-- Setting or clearing Negative leaves the Zero bit alone. -/
theorem setN_and_two (st : Nat) (b : Bool) :
    statusSet st Flags.NEGATIVE b &&& Flags.ZERO = st &&& Flags.ZERO := by
  cases b
  · show statusRemove st Flags.NEGATIVE &&& Flags.ZERO = st &&& Flags.ZERO
    unfold statusRemove Flags.NEGATIVE Flags.ZERO
    rw [Nat.and_assoc, (by decide : ((0xff : Nat) ^^^ 128) &&& 2 = 2)]
  · show statusInsert st Flags.NEGATIVE &&& Flags.ZERO = st &&& Flags.ZERO
    unfold statusInsert Flags.NEGATIVE Flags.ZERO
    rw [Nat.and_distrib_right, (by decide : ((128 : Nat) &&& 2) = 0), Nat.or_zero]

/-- Reading Zero back after setting it. -/
theorem contains_setZ (st : Nat) (b : Bool) :
    statusContains (statusSet st Flags.ZERO b) Flags.ZERO = b := by
  cases b
  · show statusContains (statusRemove st Flags.ZERO) Flags.ZERO = false
    unfold statusContains statusRemove Flags.ZERO
    rw [Nat.and_assoc, (by decide : ((0xff : Nat) ^^^ 2) &&& 2 = 0)]
    simp
  · show statusContains (statusInsert st Flags.ZERO) Flags.ZERO = true
    unfold statusContains statusInsert Flags.ZERO
    rw [Nat.and_distrib_right, (by decide : ((2 : Nat) &&& 2) = 2)]
    simp [or_ne_zero_right]

/-- Reading Negative back after setting it. -/
theorem contains_setN (st : Nat) (b : Bool) :
    statusContains (statusSet st Flags.NEGATIVE b) Flags.NEGATIVE = b := by
  cases b
  · show statusContains (statusRemove st Flags.NEGATIVE) Flags.NEGATIVE = false
    unfold statusContains statusRemove Flags.NEGATIVE
    rw [Nat.and_assoc, (by decide : ((0xff : Nat) ^^^ 128) &&& 128 = 0)]
    simp
  · show statusContains (statusInsert st Flags.NEGATIVE) Flags.NEGATIVE = true
    unfold statusContains statusInsert Flags.NEGATIVE
    rw [Nat.and_distrib_right, (by decide : ((128 : Nat) &&& 128) = 128)]
    simp [or_ne_zero_right]

/-- Inserting Carry makes Carry read as set. -/
theorem contains_insert_carry (st : Nat) :
    statusContains (statusInsert st Flags.CARRY) Flags.CARRY = true := by
  unfold statusContains statusInsert Flags.CARRY
  rw [Nat.and_distrib_right, (by decide : ((1 : Nat) &&& 1) = 1)]
  simp [or_ne_zero_right]

/-- Z/N updates keep the Carry flag. -/
theorem uzn_carry (s : CPUState) (v : Nat) :
    statusContains (update_zero_and_negative_flags s v).status Flags.CARRY
      = statusContains s.status Flags.CARRY := by
  rw [uzn_status]
  exact ((contains_congr _ _ _ (setN_and_one ..)).trans
    (contains_congr _ _ _ (setZ_and_one ..)))

/-- Zero flag after a Z/N update. -/
theorem uzn_zero (s : CPUState) (v : Nat) :
    statusContains (update_zero_and_negative_flags s v).status Flags.ZERO
      = decide (v = 0) := by
  rw [uzn_status]
  exact (contains_congr _ _ _ (setN_and_two ..)).trans (contains_setZ ..)

/-- Negative flag after a Z/N update. -/
theorem uzn_neg (s : CPUState) (v : Nat) :
    statusContains (update_zero_and_negative_flags s v).status Flags.NEGATIVE
      = decide (v &&& 0x80 ≠ 0) := by
  rw [uzn_status]
  exact contains_setN ..

/-- Z/N updates keep the accumulator. -/
theorem uzn_register_a (s : CPUState) (v : Nat) :
    (update_zero_and_negative_flags s v).register_a = s.register_a := by
  unfold update_zero_and_negative_flags set_flag clear_flag
  split <;> split <;> rfl

/-- Z/N updates keep X. -/
theorem uzn_register_x (s : CPUState) (v : Nat) :
    (update_zero_and_negative_flags s v).register_x = s.register_x := by
  unfold update_zero_and_negative_flags set_flag clear_flag
  split <;> split <;> rfl

/-- Z/N updates keep the program counter. -/
theorem uzn_pc (s : CPUState) (v : Nat) :
    (update_zero_and_negative_flags s v).program_counter = s.program_counter := by
  unfold update_zero_and_negative_flags set_flag clear_flag
  split <;> split <;> rfl

/-- Z/N updates keep memory. -/
theorem uzn_mem (s : CPUState) (v : Nat) :
    (update_zero_and_negative_flags s v).mem = s.mem := by
  unfold update_zero_and_negative_flags set_flag clear_flag
  split <;> split <;> rfl

/-- Behaviour of one whole loop iteration on a DCP-shaped arm. -/
theorem dcp_step (s : CPUState) (op addr : Nat)
    (hop : memRead s s.program_counter = op)
    (he : execOpcode (fetchState s) op
        = withAddr (fetchState s) ((OPCODE_MAP op).mode) fun a =>
            let data := memRead (fetchState s) a
            let result := u8_sub data 1
            let s1 := memWrite (fetchState s) a result
            let s2 := if result ≤ s1.register_a then set_flag s1 Flags.CARRY else s1
            .next (update_zero_and_negative_flags s2 (u8_sub s2.register_a result)))
    (hl : 1 ≤ (OPCODE_MAP op).len)
    (haddr : get_operand_address (fetchState s) ((OPCODE_MAP op).mode) = some addr) :
    ∃ s', cpuStep s = .next s'
      ∧ memRead s' addr = u8_sub (memRead s addr) 1
      ∧ s'.register_a = s.register_a
      ∧ statusContains s'.status Flags.CARRY
          = (decide (u8_sub (memRead s addr) 1 ≤ s.register_a)
              || statusContains s.status Flags.CARRY)
      ∧ statusContains s'.status Flags.ZERO
          = decide (u8_sub s.register_a (u8_sub (memRead s addr) 1) = 0)
      ∧ statusContains s'.status Flags.NEGATIVE
          = decide ((u8_sub s.register_a (u8_sub (memRead s addr) 1)) &&& 0x80 ≠ 0)
      ∧ (∀ i, i ≠ addr → s'.mem i = s.mem i)
      ∧ s'.program_counter = wrap16 (s.program_counter + (OPCODE_MAP op).len) := by
  have hread : memRead (fetchState s) addr = memRead s addr := rfl
  set t := fetchState s with ht
  set r := u8_sub (memRead s addr) 1 with hr
  set s1 := memWrite t addr r with hs1
  set s2 := (if r ≤ s1.register_a then set_flag s1 Flags.CARRY else s1 : CPUState) with hs2
  set f0 := update_zero_and_negative_flags s2 (u8_sub s2.register_a r) with hf0
  have ha1 : s1.register_a = s.register_a := rfl
  have ha2 : s2.register_a = s.register_a := by
    rw [hs2]; split <;> rfl
  have hm2 : s2.mem = s1.mem := by
    rw [hs2]; split <;> rfl
  have hp2 : s2.program_counter = t.program_counter := by
    rw [hs2]; split <;> rfl
  have hstep : cpuStep s
      = .next { f0 with program_counter := wrap16 (f0.program_counter + ((OPCODE_MAP op).len - 1)) } := by
    rw [cpuStep, hop, he, withAddr_some _ _ addr _ haddr]
    show stepAdjust s op (.next f0) = _
    rw [stepAdjust_next, if_pos (by rw [hf0, uzn_pc, hp2])]
  refine ⟨_, hstep, ?_, ?_, ?_, ?_, ?_, ?_, ?_⟩
  · show (f0.mem addr) % 256 = r
    rw [hf0, uzn_mem, hm2, hs1]
    show (if addr = addr then r else t.mem addr) % 256 = r
    rw [if_pos rfl, Nat.mod_eq_of_lt (u8_sub_lt ..)]
  · show f0.register_a = s.register_a
    rw [hf0, uzn_register_a, ha2]
  · show statusContains f0.status Flags.CARRY = _
    rw [hf0, uzn_carry, hs2]
    by_cases hc : r ≤ s1.register_a
    · rw [if_pos hc, ha1] at *
      simp only [set_flag, contains_insert_carry]
      rw [ha1] at hc
      simp [hc]
    · rw [if_neg hc]
      rw [ha1] at hc
      simp [hc]
      rfl
  · show statusContains f0.status Flags.ZERO = _
    rw [hf0, uzn_zero, ha2]
  · show statusContains f0.status Flags.NEGATIVE = _
    rw [hf0, uzn_neg, ha2]
  · intro i hi
    show f0.mem i = s.mem i
    rw [hf0, uzn_mem, hm2, hs1]
    show (if i = addr then r else t.mem i) = s.mem i
    rw [if_neg hi]
    rfl
  · show wrap16 (f0.program_counter + ((OPCODE_MAP op).len - 1)) = _
    rw [hf0, uzn_pc, hp2, ht, fetchState_pc]
    unfold wrap16
    omega

set_option maxRecDepth 4096 in
/-- C5 (amended): a DCP opcode decrements the memory byte at the effective
address modulo 256 and compares it against `A`: the Carry flag is SET when
the decremented value is at most `A` but is otherwise LEFT UNCHANGED (the
arm has no `else` that clears it), Z/N are updated from
`A - decremented` modulo 256, `A` itself is unchanged, no other memory
cell changes, and PC advances by the instruction length. -/
theorem c5_dcp_amended (s : CPUState) (addr : Nat)
    (hop : memRead s s.program_counter ∈ dcpOpcodes)
    (haddr : get_operand_address (fetchState s)
        ((OPCODE_MAP (memRead s s.program_counter)).mode) = some addr) :
    ∃ s', cpuStep s = .next s'
      ∧ memRead s' addr = u8_sub (memRead s addr) 1
      ∧ s'.register_a = s.register_a
      ∧ statusContains s'.status Flags.CARRY
          = (decide (u8_sub (memRead s addr) 1 ≤ s.register_a)
              || statusContains s.status Flags.CARRY)
      ∧ statusContains s'.status Flags.ZERO
          = decide (u8_sub s.register_a (u8_sub (memRead s addr) 1) = 0)
      ∧ statusContains s'.status Flags.NEGATIVE
          = decide ((u8_sub s.register_a (u8_sub (memRead s addr) 1)) &&& 0x80 ≠ 0)
      ∧ (∀ i, i ≠ addr → s'.mem i = s.mem i)
      ∧ s'.program_counter
          = wrap16 (s.program_counter + (OPCODE_MAP (memRead s s.program_counter)).len) := by
  simp only [dcpOpcodes, List.mem_cons, List.not_mem_nil, or_false] at hop
  rcases hop with h|h|h|h|h|h|h <;> rw [h] at haddr ⊢ <;>
    exact dcp_step s _ addr h rfl (by decide) haddr

/-- Witness for the amended C5 at the concrete `DCP $10` state. -/
theorem c5_dcp_amended_witness :
    (memRead exDcp exDcp.program_counter ∈ dcpOpcodes
      ∧ get_operand_address (fetchState exDcp)
          ((OPCODE_MAP (memRead exDcp exDcp.program_counter)).mode) = some 0x10)
    ∧ (∃ s', cpuStep exDcp = .next s'
      ∧ memRead s' 0x10 = u8_sub (memRead exDcp 0x10) 1
      ∧ s'.register_a = exDcp.register_a
      ∧ statusContains s'.status Flags.CARRY
          = (decide (u8_sub (memRead exDcp 0x10) 1 ≤ exDcp.register_a)
              || statusContains exDcp.status Flags.CARRY)
      ∧ statusContains s'.status Flags.ZERO
          = decide (u8_sub exDcp.register_a (u8_sub (memRead exDcp 0x10) 1) = 0)
      ∧ statusContains s'.status Flags.NEGATIVE
          = decide ((u8_sub exDcp.register_a (u8_sub (memRead exDcp 0x10) 1)) &&& 0x80 ≠ 0)
      ∧ (∀ i, i ≠ 0x10 → s'.mem i = exDcp.mem i)
      ∧ s'.program_counter
          = wrap16 (exDcp.program_counter + (OPCODE_MAP (memRead exDcp exDcp.program_counter)).len)) :=
  ⟨⟨by decide, by decide⟩, c5_dcp_amended exDcp 0x10 (by decide) (by decide)⟩

/-- C5 counterexample: `DCP $10` with `A = 0`, Carry initially set, and
memory `2` at `0x10`: the decremented value `1` is greater than `A`, so
the claim requires Carry to be cleared, but after the step Carry is still
set (the arm never clears it). -/
theorem c5_dcp_carry_counterexample :
    statusContains exDcp.status Flags.CARRY = true
    ∧ ¬ (u8_sub (memRead exDcp 0x10) 1 ≤ exDcp.register_a)
    ∧ (stepState (cpuStep exDcp)).map
        (fun u => (statusContains u.status Flags.CARRY, memRead u 0x10, u.register_a))
        = some (true, 1, 0) :=
  ⟨rfl, by decide, rfl⟩

/-- C4: evaluation of opcode `0xCB` (SBX/AXS) at the failing input
`A = 0x40`, `X = 0xFF`, `M = 0` with `P = 0x26` (Zero set, Carry clear).
`X` does become `(A & X) - M = 0x40`, but — because the arm's trailing
`update_carry_flag(result)` overrides the earlier conditional insert with
bit 7 of the result — Carry ends CLEAR although `M = 0 ≤ A & X = 0x40`,
and Z/N are never updated, so the stale Zero flag stays SET although the
result `0x40` is nonzero. -/
theorem c4_axs_at_failing_input :
    memRead exAxs exAxs.program_counter = 0xcb
    ∧ exAxs.register_a &&& exAxs.register_x = 0x40
    ∧ memRead exAxs (wrap16 (exAxs.program_counter + 1)) = 0x00
    ∧ statusContains exAxs.status Flags.ZERO = true
    ∧ (stepState (cpuStep exAxs)).map
        (fun u => (u.register_x, statusContains u.status Flags.CARRY,
          statusContains u.status Flags.ZERO, statusContains u.status Flags.NEGATIVE))
        = some (0x40, false, true, false) :=
  ⟨rfl, rfl, rfl, rfl, rfl⟩

/-- C8 (amended): opcode `0x8B` (XAA/ANE) first overwrites `A` with `X`
(updating Z/N from that intermediate value) and then sets
`A ← M & A = M & X`, updating Z/N from the final accumulator; the
pre-instruction accumulator is ignored.  `X`, memory and the rest of the
machine are unchanged and PC advances by 2. -/
theorem c8_xaa_amended (s : CPUState) (hop : memRead s s.program_counter = 0x8b) :
    ∃ s', cpuStep s = .next s'
      ∧ s'.register_a = memRead s (wrap16 (s.program_counter + 1)) &&& s.register_x
      ∧ statusContains s'.status Flags.ZERO = decide (s'.register_a = 0)
      ∧ statusContains s'.status Flags.NEGATIVE = decide (s'.register_a &&& 0x80 ≠ 0)
      ∧ s'.register_x = s.register_x
      ∧ s'.mem = s.mem
      ∧ s'.program_counter = wrap16 (s.program_counter + 2) := by
  set t := fetchState s with ht
  set s1 : CPUState := { t with register_a := t.register_x } with hs1
  set s2 := update_zero_and_negative_flags s1 s1.register_a with hs2
  set d := memRead s2 s2.program_counter with hd
  set s3 : CPUState := { s2 with register_a := d &&& s2.register_a } with hs3
  set f0 := update_zero_and_negative_flags s3 s3.register_a with hf0
  have he : execOpcode t 0x8b
      = withAddr s2 ((OPCODE_MAP 0x8b).mode) fun addr =>
          let data := memRead s2 addr
          let u : CPUState := { s2 with register_a := data &&& s2.register_a }
          .next (update_zero_and_negative_flags u u.register_a) := rfl
  have haddr : get_operand_address s2 ((OPCODE_MAP 0x8b).mode)
      = some s2.program_counter := rfl
  have hdata : d = memRead s (wrap16 (s.program_counter + 1)) := by
    rw [hd]
    unfold memRead
    rw [hs2, uzn_mem, uzn_pc]
    rfl
  have hxa : s2.register_a = s.register_x := by
    rw [hs2, uzn_register_a]
    rfl
  have hpc0 : f0.program_counter = t.program_counter := by
    rw [hf0, uzn_pc, hs3]
    show s2.program_counter = t.program_counter
    rw [hs2, uzn_pc]
  have hstep : cpuStep s
      = .next { f0 with program_counter := wrap16 (f0.program_counter + ((OPCODE_MAP 0x8b).len - 1)) } := by
    rw [cpuStep, hop, he, withAddr_some _ _ _ _ haddr]
    show stepAdjust s 0x8b (.next f0) = _
    rw [stepAdjust_next, if_pos hpc0.symm]
  have ha0 : f0.register_a = memRead s (wrap16 (s.program_counter + 1)) &&& s.register_x := by
    rw [hf0, uzn_register_a, hs3]
    show d &&& s2.register_a = _
    rw [hdata, hxa]
  refine ⟨_, hstep, ha0, ?_, ?_, ?_, ?_, ?_⟩
  · show statusContains f0.status Flags.ZERO = decide (f0.register_a = 0)
    rw [hf0, uzn_zero, uzn_register_a]
  · show statusContains f0.status Flags.NEGATIVE = decide (f0.register_a &&& 0x80 ≠ 0)
    rw [hf0, uzn_neg, uzn_register_a]
  · show f0.register_x = s.register_x
    rw [hf0, uzn_register_x, hs3]
    show s2.register_x = s.register_x
    rw [hs2, uzn_register_x]
    rfl
  · show f0.mem = s.mem
    rw [hf0, uzn_mem, hs3]
    show s2.mem = s.mem
    rw [hs2, uzn_mem]
    rfl
  · show wrap16 (f0.program_counter + ((OPCODE_MAP 0x8b).len - 1)) = _
    have hlen : (OPCODE_MAP 0x8b).len = 2 := rfl
    rw [hpc0, ht, fetchState_pc]
    unfold wrap16
    omega

/-- Witness for the amended C8 at the concrete `XAA #$FF` state. -/
theorem c8_xaa_amended_witness :
    memRead exXaa exXaa.program_counter = 0x8b
    ∧ (∃ s', cpuStep exXaa = .next s'
      ∧ s'.register_a = memRead exXaa (wrap16 (exXaa.program_counter + 1)) &&& exXaa.register_x
      ∧ statusContains s'.status Flags.ZERO = decide (s'.register_a = 0)
      ∧ statusContains s'.status Flags.NEGATIVE = decide (s'.register_a &&& 0x80 ≠ 0)
      ∧ s'.register_x = exXaa.register_x
      ∧ s'.mem = exXaa.mem
      ∧ s'.program_counter = wrap16 (exXaa.program_counter + 2)) :=
  ⟨by decide, c8_xaa_amended exXaa (by decide)⟩

/-- C8 counterexample: `XAA #$FF` with pre-instruction `A = 0xFF` and
`X = 0`: the claim predicts `A ← A & M = 0xFF`, but the code ends with
`A = 0` because it computes `X & M`, discarding the old accumulator. -/
theorem c8_xaa_counterexample :
    exXaa.register_a &&& memRead exXaa (wrap16 (exXaa.program_counter + 1)) = 0xff
    ∧ (stepState (cpuStep exXaa)).map CPUState.register_a = some 0
    ∧ (0 : Nat) ≠ 0xff :=
  ⟨rfl, rfl, by decide⟩

end NesRust
